import Mathlib

/-!
Verification of the connection polling-flag core
(include/types/connection.h).

This file shallowly embeds the flag constants, the connection record, and the
polling-intent operations of the connection abstraction layer, and proves the
specification claims about them.

The single source file of the repository, `include/types/connection.h`,
defines the flag constants and the `struct connection` record.  The
operations over them (the polling-intent reconciler, the per-direction
enable/stop/poll manipulations, the shutdown check-and-set gate, the peer
address accessors) are declared by the specification but their code is not
part of this repository snapshot; where a claim needs them they are modelled
from the spec, and each such definition says so in its doc comment.

The C `flags` field is an `unsigned int`; we embed flag words as `Nat`
with all constants below `2^32`, using `&&&`/`|||`/`^^^`/`>>>` exactly as the
C code uses `&`/`|`/`^`/`>>`.
-/

/-! ## Flag constants, transcribed from the `enum` of connection.h -/

def CO_FL_NONE          : Nat := 0x00000000

/-- a fatal error was reported -/
def CO_FL_ERROR         : Nat := 0x00000001

/-- the connection is now established -/
def CO_FL_CONNECTED     : Nat := 0x00000002

/-- waiting for L4 to be connected -/
def CO_FL_WAIT_L4_CONN  : Nat := 0x00000004

/-- waiting for L6 to be connected (eg: SSL) -/
def CO_FL_WAIT_L6_CONN  : Nat := 0x00000008

/-- notify stream interface about changes -/
def CO_FL_NOTIFY_SI     : Nat := 0x00000010

/-- send a valid PROXY protocol header (a connection handshake flag) -/
def CO_FL_SI_SEND_PROXY : Nat := 0x00000020

/-- all handshake flags grouped into one -/
def CO_FL_HANDSHAKE     : Nat := CO_FL_SI_SEND_PROXY

/-- when any of these flags is set, polling is defined by socket-layer
operations, as opposed to data-layer. -/
def CO_FL_POLL_SOCK     : Nat :=
  CO_FL_HANDSHAKE ||| CO_FL_WAIT_L4_CONN ||| CO_FL_WAIT_L6_CONN

/-- DATA layer was notified about shutr/read0 -/
def CO_FL_DATA_RD_SH    : Nat := 0x00010000

/-- DATA layer asked for shutw -/
def CO_FL_DATA_WR_SH    : Nat := 0x00020000

/-- SOCK layer was notified about shutr/read0 -/
def CO_FL_SOCK_RD_SH    : Nat := 0x00040000

/-- SOCK layer asked for shutw -/
def CO_FL_SOCK_WR_SH    : Nat := 0x00080000

/-! The unshifted per-direction base flags (the header warns their values
must not change, as the three families below are built by shifting them). -/

def CO_FL_RD_ENA : Nat := 1
def CO_FL_RD_POL : Nat := 2
def CO_FL_WR_ENA : Nat := 4
def CO_FL_WR_POL : Nat := 8

/-! flags describing the DATA layer expectations regarding polling -/

/-- receiving is allowed -/
def CO_FL_DATA_RD_ENA   : Nat := CO_FL_RD_ENA <<< 20

/-- receiving needs to poll first -/
def CO_FL_DATA_RD_POL   : Nat := CO_FL_RD_POL <<< 20

/-- sending is desired -/
def CO_FL_DATA_WR_ENA   : Nat := CO_FL_WR_ENA <<< 20

/-- sending needs to poll first -/
def CO_FL_DATA_WR_POL   : Nat := CO_FL_WR_POL <<< 20

/-! flags describing the SOCK layer expectations regarding polling -/

/-- receiving is allowed -/
def CO_FL_SOCK_RD_ENA   : Nat := CO_FL_RD_ENA <<< 24

/-- receiving needs to poll first -/
def CO_FL_SOCK_RD_POL   : Nat := CO_FL_RD_POL <<< 24

/-- sending is desired -/
def CO_FL_SOCK_WR_ENA   : Nat := CO_FL_WR_ENA <<< 24

/-- sending needs to poll first -/
def CO_FL_SOCK_WR_POL   : Nat := CO_FL_WR_POL <<< 24

/-! flags storing the current polling state -/

/-- receiving is allowed -/
def CO_FL_CURR_RD_ENA   : Nat := CO_FL_RD_ENA <<< 28

/-- receiving needs to poll first -/
def CO_FL_CURR_RD_POL   : Nat := CO_FL_RD_POL <<< 28

/-- sending is desired -/
def CO_FL_CURR_WR_ENA   : Nat := CO_FL_WR_ENA <<< 28

/-- sending needs to poll first -/
def CO_FL_CURR_WR_POL   : Nat := CO_FL_WR_POL <<< 28

/-! ## The polling-intent reconciler

The reconciler's C source is not part of this repository snapshot (only the
flag constants it operates on are); the definitions in this section are
modelled from the spec (§4.1, §4.3, §7) on top of the constants above.
A declared-intent or current-state "nibble" is the 4-bit group of one flag
family in base position: bit `CO_FL_RD_ENA`, `CO_FL_RD_POL`, `CO_FL_WR_ENA`,
`CO_FL_WR_POL`. -/

/-- Modelled from the spec: the effective declared-intent nibble.  Missing
from src/: the reconciler reading the intent families.  Per the header
comment on `CO_FL_POLL_SOCK` and spec §4.1/§4.3, when any flag of
`CO_FL_POLL_SOCK` is set, polling is defined by the socket-layer
expectations (bits 24..27), otherwise by the data-layer ones (bits 20..23). -/
def intentNibble (f : Nat) : Nat :=
  if f &&& CO_FL_POLL_SOCK ≠ 0 then f / 0x1000000 % 16 else f / 0x100000 % 16

/-- Modelled from the spec: per-direction cleanup of an intent nibble
(§4.3 edge case).  If a direction's ENABLED bit is clear, its NEEDS-POLL
bit is discarded as well — a disabled direction has no bearing on polling. -/
def normalizeNibble (n : Nat) : Nat :=
  (if n &&& CO_FL_RD_ENA ≠ 0 then n &&& (CO_FL_RD_ENA ||| CO_FL_RD_POL) else 0) |||
  (if n &&& CO_FL_WR_ENA ≠ 0 then n &&& (CO_FL_WR_ENA ||| CO_FL_WR_POL) else 0)

/-- Modelled from the spec: the target ENABLED/NEEDS-POLL nibble of one
reconciliation (§4.3, §7).  If the error flag is present, all directions
reconcile to disabled regardless of declared intent. -/
def reconcileTarget (f : Nat) : Nat :=
  if f &&& CO_FL_ERROR ≠ 0 then 0 else normalizeNibble (intentNibble f)

/-- The currently armed `CO_FL_CURR_*` nibble (bits 28..31) of a flag word. -/
def currNibble (f : Nat) : Nat := f / 0x10000000 % 16

/-- Modelled from the spec: the three possible outcomes of a reconciliation
pushed to the poller (§4.3). -/
inductive PollerAction where
  | noop
  | enableOnly
  | armForPoll
deriving DecidableEq, Repr

/-- Modelled from the spec: which action one reconciliation emits (§4.3):
a no-op when the target already equals the armed state, arm-for-poll when
some NEEDS-POLL bit must be newly armed, and enable-only otherwise. -/
def pollerAction (f : Nat) : PollerAction :=
  if reconcileTarget f = currNibble f then PollerAction.noop
  else if reconcileTarget f &&& (CO_FL_RD_POL ||| CO_FL_WR_POL) &&& (15 ^^^ currNibble f) ≠ 0 then
    PollerAction.armForPoll
  else PollerAction.enableOnly

/-- Modelled from the spec: one full reconciliation (§4.3).  The target is
computed from the declared intents and the `CO_FL_CURR_*` nibble is updated
to exactly the just-armed pattern; all other bits are left untouched. -/
def conn_update_polling (f : Nat) : Nat :=
  f % 0x10000000 + reconcileTarget f * 0x10000000

/-! ## Per-direction intent manipulations

The header (lines 40..48) documents the per-direction operations over a
2-bit `POL`/`ENA` group: enabling ORs the ENA bit in, stopping ANDs it out,
and polling sets the direction's two bits (its comment's literal "ORing
with ~3" cannot be meant bitwise globally, as that would set every other
bit of the word; the only reading consistent with its truth table, whose
POLLED row has POL and ENA both set, is OR-ing the direction's two bits).
The C helpers applying these to the DATA/SOCK families are not part of
this snapshot, so they are modelled here from that comment and spec §4.1. -/

inductive Dir where
  | rd
  | wr
deriving DecidableEq, Repr

/-- The two declared-intent families that callers manipulate directly. -/
inductive IntentLayer where
  | data
  | sock
deriving DecidableEq, Repr

inductive DirOp where
  | enable
  | disable
  | pollNeeded
deriving DecidableEq, Repr

def layerShift : IntentLayer → Nat
  | IntentLayer.data => 20
  | IntentLayer.sock => 24

def enaMask (L : IntentLayer) (d : Dir) : Nat :=
  (match d with | Dir.rd => CO_FL_RD_ENA | Dir.wr => CO_FL_WR_ENA) <<< layerShift L

def polMask (L : IntentLayer) (d : Dir) : Nat :=
  (match d with | Dir.rd => CO_FL_RD_POL | Dir.wr => CO_FL_WR_POL) <<< layerShift L

/-- Both bits of one direction of one family. -/
def dirMask (L : IntentLayer) (d : Dir) : Nat := enaMask L d ||| polMask L d

/-- Complement of a mask within the 32-bit flag word, as C's `~mask`
applied to an `unsigned int`. -/
def NOT32 (m : Nat) : Nat := 0xFFFFFFFF ^^^ m

/-- Modelled from the spec and the header comment (lines 46..48): missing
from src/ are the `conn_data_*`/`conn_sock_*` helpers.  Enabling ORs the
direction's ENA bit, stopping ANDs it out, polling ORs both bits in. -/
def applyOp (L : IntentLayer) (d : Dir) : DirOp → Nat → Nat
  | DirOp.enable, f => f ||| enaMask L d
  | DirOp.disable, f => f &&& NOT32 (enaMask L d)
  | DirOp.pollNeeded, f => f ||| (enaMask L d ||| polMask L d)

/-- A sequence of per-direction operations within one family, applied left
to right. -/
def applyOps (L : IntentLayer) : List (Dir × DirOp) → Nat → Nat
  | [], f => f
  | (d, o) :: rest, f => applyOps L rest (applyOp L d o f)

/-- The read-direction subsequence of an operation list. -/
def rdOnly : List (Dir × DirOp) → List (Dir × DirOp)
  | [] => []
  | (Dir.rd, o) :: rest => (Dir.rd, o) :: rdOnly rest
  | (Dir.wr, _) :: rest => rdOnly rest

/-- The write-direction subsequence of an operation list. -/
def wrOnly : List (Dir × DirOp) → List (Dir × DirOp)
  | [] => []
  | (Dir.rd, _) :: rest => wrOnly rest
  | (Dir.wr, o) :: rest => (Dir.wr, o) :: wrOnly rest

/-- The three states of one direction per the header's truth table
(lines 40..44): ENA clear is STOPPED whatever POL holds; ENA set is
ENABLED, or POLLED when POL is also set. -/
inductive DirPollState where
  | STOPPED
  | ENABLED
  | POLLED
deriving DecidableEq, Repr

def dirState (L : IntentLayer) (d : Dir) (f : Nat) : DirPollState :=
  if f &&& enaMask L d ≠ 0 then
    (if f &&& polMask L d ≠ 0 then DirPollState.POLLED else DirPollState.ENABLED)
  else DirPollState.STOPPED

/-! ## Shutdown notification gate -/

/-- Modelled from the spec: the check-and-set operation of the shutdown
notification gate (§4.4, §7), missing from src/.  Applied to one of the
four `CO_FL_*_SH` latch bits, it reports whether the caller is the first
observer of the edge and returns the flag word with the latch set. -/
def checkAndSet (f m : Nat) : Bool × Nat := (f &&& m == 0, f ||| m)

/-! ## The connection record -/

/-- The `struct connection` record.  The two operation-table pointers are
opaque external references (spec §1: consumed only through their
interfaces), embedded as abstract identifiers; the transport-handle union
holds the socket file descriptor; `peeraddr` embeds the
`struct sockaddr *` pointer (`none` for `NULL`) with the address bytes,
and `peerlen` the separately stored `socklen_t`. -/
structure connection where
  data : Nat
  ctrl : Nat
  fd : Int
  flags : Nat
  data_st : Int
  data_ctx : Option Nat
  peeraddr : Option (List Nat)
  peerlen : Nat
deriving DecidableEq, Repr

/-- The pointer/length consistency invariant of spec §3: the peer address
is absent exactly when its stored length is zero. -/
def peerConsistent (c : connection) : Prop := c.peeraddr = none ↔ c.peerlen = 0

instance (c : connection) : Decidable (peerConsistent c) := by
  unfold peerConsistent
  infer_instance

/-- Modelled from the spec: connection creation (§3 lifecycle): flags
empty, data-layer state zero, context empty, no peer address. -/
def conn_init (d ct : Nat) (fd : Int) : connection :=
  { data := d, ctrl := ct, fd := fd, flags := CO_FL_NONE, data_st := 0,
    data_ctx := none, peeraddr := none, peerlen := 0 }

/-- Modelled from the spec: set the peer address as an atomic pair (§4.2):
the stored length is updated together with the pointer, zero exactly when
the address is absent. -/
def conn_set_peeraddr (c : connection) (a : Option (List Nat)) : connection :=
  { c with peeraddr := a,
           peerlen := match a with | none => 0 | some l => l.length }

/-- Modelled from the spec: get the peer address as an atomic pair (§4.2). -/
def conn_get_peeraddr (c : connection) : Option (List Nat) × Nat :=
  (c.peeraddr, c.peerlen)

/-- A flag-word manipulation lifted to the record: every flag operation of
the core touches only the `flags` field. -/
def conn_update_flags (c : connection) (g : Nat → Nat) : connection :=
  { c with flags := g c.flags }

/-- The DATA-layer declared-intent nibble (bits 20..23) of a flag word. -/
def dataNib (f : Nat) : Nat := f / 0x100000 % 16

/-- The SOCK-layer declared-intent nibble (bits 24..27) of a flag word. -/
def sockNib (f : Nat) : Nat := f / 0x1000000 % 16

/-- The flag constants meant to be stored in `connection.flags`: the six
lifecycle/status flags, the four shutdown latches, and the twelve
DATA/SOCK/CURR polling bits.  The pure group masks (`CO_FL_HANDSHAKE`,
`CO_FL_POLL_SOCK`) and the unshifted base constants are not storable
values and are deliberately not listed. -/
def storableFlags : List Nat :=
  [CO_FL_ERROR, CO_FL_CONNECTED, CO_FL_WAIT_L4_CONN, CO_FL_WAIT_L6_CONN,
   CO_FL_NOTIFY_SI, CO_FL_SI_SEND_PROXY,
   CO_FL_DATA_RD_SH, CO_FL_DATA_WR_SH, CO_FL_SOCK_RD_SH, CO_FL_SOCK_WR_SH,
   CO_FL_DATA_RD_ENA, CO_FL_DATA_RD_POL, CO_FL_DATA_WR_ENA, CO_FL_DATA_WR_POL,
   CO_FL_SOCK_RD_ENA, CO_FL_SOCK_RD_POL, CO_FL_SOCK_WR_ENA, CO_FL_SOCK_WR_POL,
   CO_FL_CURR_RD_ENA, CO_FL_CURR_RD_POL, CO_FL_CURR_WR_ENA, CO_FL_CURR_WR_POL]

/-- All lifecycle/status flag bits. -/
def lifecycleMask : Nat :=
  CO_FL_ERROR ||| CO_FL_CONNECTED ||| CO_FL_WAIT_L4_CONN ||| CO_FL_WAIT_L6_CONN |||
  CO_FL_NOTIFY_SI ||| CO_FL_SI_SEND_PROXY

/-- All shutdown bookkeeping bits. -/
def shutdownMask : Nat :=
  CO_FL_DATA_RD_SH ||| CO_FL_DATA_WR_SH ||| CO_FL_SOCK_RD_SH ||| CO_FL_SOCK_WR_SH

/-- All DATA-layer declared-intent bits. -/
def dataIntentMask : Nat :=
  CO_FL_DATA_RD_ENA ||| CO_FL_DATA_RD_POL ||| CO_FL_DATA_WR_ENA ||| CO_FL_DATA_WR_POL

/-- All SOCK-layer declared-intent bits. -/
def sockIntentMask : Nat :=
  CO_FL_SOCK_RD_ENA ||| CO_FL_SOCK_RD_POL ||| CO_FL_SOCK_WR_ENA ||| CO_FL_SOCK_WR_POL

/-- All current-polling-state bits. -/
def currStateMask : Nat :=
  CO_FL_CURR_RD_ENA ||| CO_FL_CURR_RD_POL ||| CO_FL_CURR_WR_ENA ||| CO_FL_CURR_WR_POL

/-- The unshifted ENABLED base bit of a direction. -/
def baseEnaMask : Dir → Nat
  | Dir.rd => CO_FL_RD_ENA
  | Dir.wr => CO_FL_WR_ENA

/-- The unshifted NEEDS-POLL base bit of a direction. -/
def basePolMask : Dir → Nat
  | Dir.rd => CO_FL_RD_POL
  | Dir.wr => CO_FL_WR_POL

/-- The `CO_FL_CURR_*_ENA` bit of a direction. -/
def currEnaMask (d : Dir) : Nat := baseEnaMask d <<< 28

/-- The `CO_FL_CURR_*_POL` bit of a direction. -/
def currPolMask (d : Dir) : Nat := basePolMask d <<< 28

/-! ## Bitwise toolkit -/

lemma or_and_distrib (f a k : Nat) : (f ||| a) &&& k = (f &&& k) ||| (a &&& k) := by
  apply Nat.eq_of_testBit_eq
  intro i
  simp only [Nat.testBit_and, Nat.testBit_or]
  cases hf : f.testBit i <;> cases hA : a.testBit i <;> cases hK : k.testBit i <;> simp_all

lemma and_or_of_submask (f a c : Nat) (h : a &&& c = a) :
    (f ||| a) &&& c = (f &&& c) ||| a := by
  rw [or_and_distrib, h]

lemma or_and_of_disjoint (f a k : Nat) (h : a &&& k = 0) :
    (f ||| a) &&& k = f &&& k := by
  rw [or_and_distrib, h, Nat.or_zero]

lemma and_and_of_absorb (f c k : Nat) (h : c &&& k = k) :
    (f &&& c) &&& k = f &&& k := by
  rw [Nat.and_assoc, h]

lemma and_and_of_zero (f c k : Nat) (h : c &&& k = 0) :
    (f &&& c) &&& k = 0 := by
  rw [Nat.and_assoc, h, Nat.and_zero]

lemma or_swap_right (f a b : Nat) : (f ||| a) ||| b = (f ||| b) ||| a := by
  rw [Nat.or_assoc, Nat.or_comm a b, ← Nat.or_assoc]

lemma and_swap_right (f a b : Nat) : (f &&& a) &&& b = (f &&& b) &&& a := by
  rw [Nat.and_assoc, Nat.and_comm a b, ← Nat.and_assoc]

lemma or_ne_zero_right (f k : Nat) (h : k ≠ 0) : f ||| k ≠ 0 := by
  intro h0
  apply h
  apply Nat.eq_of_testBit_eq
  intro i
  have hb : (f ||| k).testBit i = false := by
    rw [h0]
    simp [Nat.zero_testBit]
  simp only [Nat.testBit_or] at hb
  simp only [Nat.zero_testBit]
  exact (Bool.or_eq_false_iff.mp hb).2

lemma and_ne_zero_of_submask (f m M : Nat) (h : m &&& M = m) (hf : f &&& m ≠ 0) :
    f &&& M ≠ 0 := by
  intro hM
  apply hf
  calc f &&& m = f &&& (m &&& M) := by rw [h]
    _ = f &&& (M &&& m) := by rw [Nat.and_comm m M]
    _ = (f &&& M) &&& m := by rw [Nat.and_assoc]
    _ = 0 := by rw [hM, Nat.zero_and]

/-- Two values congruent modulo `2 ^ n` agree on any mask below `2 ^ n`. -/
lemma and_mask_congr (n m a b : Nat) (hm : m < 2 ^ n)
    (hab : a % 2 ^ n = b % 2 ^ n) : a &&& m = b &&& m := by
  apply Nat.eq_of_testBit_eq
  intro i
  simp only [Nat.testBit_and]
  by_cases hi : i < n
  · have ha : a.testBit i = (a % 2 ^ n).testBit i := by
      simp [Nat.testBit_mod_two_pow, hi]
    have hb : b.testBit i = (b % 2 ^ n).testBit i := by
      simp [Nat.testBit_mod_two_pow, hi]
    rw [ha, hb, hab]
  · have hmi : m.testBit i = false :=
      Nat.testBit_lt_two_pow
        (lt_of_lt_of_le hm (Nat.pow_le_pow_right (by norm_num) (le_of_not_lt hi)))
    simp [hmi]

/-- Two flag words with the same low 28 bits agree on any mask below
bit 28. -/
lemma and_mask_congr28 {a b : Nat} (m : Nat) (hm : m < 0x10000000)
    (hab : a % 0x10000000 = b % 0x10000000) : a &&& m = b &&& m := by
  have e : (0x10000000 : Nat) = 2 ^ 28 := by norm_num
  rw [e] at hm hab
  exact and_mask_congr 28 m a b hm hab

/-- Splitting a flag word as low 28 bits plus a high nibble, its AND with
a mask living entirely in the high nibble is the nibbles' AND, shifted. -/
lemma high_and_split (low t b : Nat) (hlow : low < 0x10000000) :
    (low + t * 0x10000000) &&& (b * 0x10000000) = (t &&& b) * 0x10000000 := by
  have hsh : ∀ x : Nat, x * 0x10000000 = x <<< 28 := by
    intro x
    rw [Nat.shiftLeft_eq]
  rw [hsh t, hsh b, hsh (t &&& b)]
  apply Nat.eq_of_testBit_eq
  intro i
  by_cases hi : i < 28
  · have hge : ¬ (28 ≤ i) := by omega
    have hb : (b <<< 28).testBit i = false := by
      rw [Nat.testBit_shiftLeft]
      simp [hge]
    have htb : ((t &&& b) <<< 28).testBit i = false := by
      rw [Nat.testBit_shiftLeft]
      simp [hge]
    rw [Nat.testBit_and, hb, htb, Bool.and_false]
  · obtain ⟨j, rfl⟩ : ∃ j, i = 28 + j := ⟨i - 28, by omega⟩
    have hlft : ∀ x : Nat, (x <<< 28).testBit (28 + j) = x.testBit j := by
      intro x
      rw [Nat.testBit_shiftLeft]
      simp [Nat.le_add_right, Nat.add_sub_cancel_left]
    have d1 : (low + t <<< 28) >>> 28 = t := by
      rw [Nat.shiftLeft_eq, Nat.shiftRight_eq_div_pow]
      have e : (2 : Nat) ^ 28 = 0x10000000 := by norm_num
      rw [e]
      omega
    have hs : (low + t <<< 28).testBit (28 + j) =
        ((low + t <<< 28) >>> 28).testBit j := by
      rw [Nat.testBit_shiftRight]
    rw [Nat.testBit_and, hlft b, hlft (t &&& b), hs, d1, Nat.testBit_and]

/-! ## Reconciler lemmas -/

lemma normalizeNibble_lt (n : Nat) : normalizeNibble n < 16 := by
  have h16 : (16 : Nat) = 2 ^ 4 := by norm_num
  unfold normalizeNibble
  rw [h16]
  apply Nat.or_lt_two_pow
  · split
    · calc n &&& (CO_FL_RD_ENA ||| CO_FL_RD_POL)
          ≤ CO_FL_RD_ENA ||| CO_FL_RD_POL := Nat.and_le_right
        _ < 2 ^ 4 := by decide
    · decide
  · split
    · calc n &&& (CO_FL_WR_ENA ||| CO_FL_WR_POL)
          ≤ CO_FL_WR_ENA ||| CO_FL_WR_POL := Nat.and_le_right
        _ < 2 ^ 4 := by decide
    · decide

lemma reconcileTarget_lt (f : Nat) : reconcileTarget f < 16 := by
  unfold reconcileTarget
  split
  · decide
  · exact normalizeNibble_lt _

lemma intentNibble_congr {a b : Nat} (h : a % 0x10000000 = b % 0x10000000) :
    intentNibble a = intentNibble b := by
  unfold intentNibble
  have h1 : a &&& CO_FL_POLL_SOCK = b &&& CO_FL_POLL_SOCK :=
    and_mask_congr28 CO_FL_POLL_SOCK (by decide) h
  have h2 : a / 0x1000000 % 16 = b / 0x1000000 % 16 := by omega
  have h3 : a / 0x100000 % 16 = b / 0x100000 % 16 := by omega
  rw [h1, h2, h3]

lemma reconcileTarget_congr {a b : Nat} (h : a % 0x10000000 = b % 0x10000000) :
    reconcileTarget a = reconcileTarget b := by
  unfold reconcileTarget
  have h1 : a &&& CO_FL_ERROR = b &&& CO_FL_ERROR :=
    and_mask_congr28 CO_FL_ERROR (by decide) h
  rw [h1, intentNibble_congr h]

lemma update_mod (f : Nat) :
    conn_update_polling f % 0x10000000 = f % 0x10000000 := by
  unfold conn_update_polling
  omega

lemma currNibble_update (f : Nat) :
    currNibble (conn_update_polling f) = reconcileTarget f := by
  have h := reconcileTarget_lt f
  unfold currNibble conn_update_polling
  omega

/-! ## Per-direction operation lemmas -/

lemma or_and_ne_zero (f a k : Nat) (h1 : a &&& k = k) (h2 : k ≠ 0) :
    (f ||| a) &&& k ≠ 0 := by
  rw [or_and_distrib, h1]
  exact or_ne_zero_right _ _ h2

lemma and_mask_of_and_mask (x y c M : Nat) (hM : c &&& M = M)
    (h : x &&& c = y &&& c) : x &&& M = y &&& M := by
  rw [← hM, ← Nat.and_assoc, h, Nat.and_assoc]

lemma enaMask_ne_zero (L : IntentLayer) (d : Dir) : enaMask L d ≠ 0 := by
  cases L <;> cases d <;> decide

lemma polMask_ne_zero (L : IntentLayer) (d : Dir) : polMask L d ≠ 0 := by
  cases L <;> cases d <;> decide

lemma ena_pol_disjoint (L : IntentLayer) (d : Dir) :
    enaMask L d &&& polMask L d = 0 := by
  cases L <;> cases d <;> decide

lemma pol_ena_disjoint (L : IntentLayer) (d : Dir) :
    polMask L d &&& enaMask L d = 0 := by
  cases L <;> cases d <;> decide

lemma not32_ena_self (L : IntentLayer) (d : Dir) :
    NOT32 (enaMask L d) &&& enaMask L d = 0 := by
  cases L <;> cases d <;> decide

/-- Read-direction and write-direction operations of the same family
commute as functions on the flag word. -/
lemma applyOp_rd_wr_comm (L : IntentLayer) (o o' : DirOp) (f : Nat) :
    applyOp L Dir.rd o (applyOp L Dir.wr o' f) =
      applyOp L Dir.wr o' (applyOp L Dir.rd o f) := by
  cases L <;> cases o <;> cases o' <;>
    simp only [applyOp] <;>
    first
      | exact or_swap_right _ _ _
      | exact and_swap_right _ _ _
      | exact and_or_of_submask _ _ _ (by decide)
      | exact (and_or_of_submask _ _ _ (by decide)).symm

/-- An operation on one direction leaves every bit outside that
direction's own two bits untouched. -/
lemma applyOp_outside (L : IntentLayer) (d : Dir) (o : DirOp) (f : Nat) :
    applyOp L d o f &&& NOT32 (dirMask L d) = f &&& NOT32 (dirMask L d) := by
  cases L <;> cases d <;> cases o <;>
    simp only [applyOp] <;>
    first
      | exact or_and_of_disjoint _ _ _ (by decide)
      | exact and_and_of_absorb _ _ _ (by decide)

lemma applyOp_preserves_error (L : IntentLayer) (d : Dir) (o : DirOp) (f : Nat) :
    applyOp L d o f &&& CO_FL_ERROR = f &&& CO_FL_ERROR := by
  cases L <;> cases d <;> cases o <;>
    simp only [applyOp] <;>
    first
      | exact or_and_of_disjoint _ _ _ (by decide)
      | exact and_and_of_absorb _ _ _ (by decide)

lemma applyOps_wr_comm (L : IntentLayer) (l : List (Dir × DirOp)) (o : DirOp)
    (f : Nat) :
    applyOps L (wrOnly l) (applyOp L Dir.rd o f) =
      applyOp L Dir.rd o (applyOps L (wrOnly l) f) := by
  induction l generalizing f with
  | nil => rfl
  | cons p rest ih =>
    obtain ⟨d, o'⟩ := p
    cases d
    · simp only [wrOnly]
      exact ih f
    · simp only [wrOnly, applyOps]
      rw [(applyOp_rd_wr_comm L o o' f).symm]
      exact ih (applyOp L Dir.wr o' f)

/-- Any interleaving equals applying all write-direction operations first,
then all read-direction ones, each group in its original order. -/
lemma applyOps_split (L : IntentLayer) (l : List (Dir × DirOp)) (f : Nat) :
    applyOps L l f = applyOps L (rdOnly l) (applyOps L (wrOnly l) f) := by
  induction l generalizing f with
  | nil => rfl
  | cons p rest ih =>
    obtain ⟨d, o⟩ := p
    cases d
    · simp only [applyOps, rdOnly, wrOnly]
      rw [ih (applyOp L Dir.rd o f)]
      rw [applyOps_wr_comm]
    · simp only [applyOps, rdOnly, wrOnly]
      exact ih (applyOp L Dir.wr o f)

lemma dirState_disable (L : IntentLayer) (d : Dir) (f : Nat) :
    dirState L d (applyOp L d DirOp.disable f) = DirPollState.STOPPED := by
  have he : applyOp L d DirOp.disable f &&& enaMask L d = 0 := by
    simp only [applyOp]
    exact and_and_of_zero _ _ _ (not32_ena_self L d)
  simp [dirState, he]

lemma dirState_pollNeeded (L : IntentLayer) (d : Dir) (f : Nat) :
    dirState L d (applyOp L d DirOp.pollNeeded f) = DirPollState.POLLED := by
  have hek : (enaMask L d ||| polMask L d) &&& enaMask L d = enaMask L d := by
    rw [or_and_distrib, Nat.and_self, pol_ena_disjoint, Nat.or_zero]
  have hpk : (enaMask L d ||| polMask L d) &&& polMask L d = polMask L d := by
    rw [or_and_distrib, Nat.and_self, ena_pol_disjoint, Nat.zero_or]
  have he : applyOp L d DirOp.pollNeeded f &&& enaMask L d ≠ 0 := by
    simp only [applyOp]
    exact or_and_ne_zero _ _ _ hek (enaMask_ne_zero L d)
  have hp : applyOp L d DirOp.pollNeeded f &&& polMask L d ≠ 0 := by
    simp only [applyOp]
    exact or_and_ne_zero _ _ _ hpk (polMask_ne_zero L d)
  simp [dirState, he, hp]

lemma dirState_enable (L : IntentLayer) (d : Dir) (f : Nat) :
    dirState L d (applyOp L d DirOp.enable f) =
      (if f &&& polMask L d ≠ 0 then DirPollState.POLLED
       else DirPollState.ENABLED) := by
  have he : applyOp L d DirOp.enable f &&& enaMask L d ≠ 0 := by
    simp only [applyOp]
    exact or_and_ne_zero _ _ _ (Nat.and_self _) (enaMask_ne_zero L d)
  have hp : applyOp L d DirOp.enable f &&& polMask L d = f &&& polMask L d := by
    simp only [applyOp]
    exact or_and_of_disjoint _ _ _ (ena_pol_disjoint L d)
  simp [dirState, he, hp]

lemma normalizeNibble_wr_zero (n : Nat) (h : n &&& CO_FL_WR_ENA = 0) :
    normalizeNibble n &&& (CO_FL_WR_ENA ||| CO_FL_WR_POL) = 0 := by
  have hB : (if n &&& CO_FL_WR_ENA ≠ 0 then n &&& (CO_FL_WR_ENA ||| CO_FL_WR_POL)
             else 0) = 0 := by
    simp [h]
  unfold normalizeNibble
  rw [hB, Nat.or_zero]
  split
  · exact and_and_of_zero _ _ _ (by decide)
  · exact Nat.zero_and _

lemma normalizeNibble_rd_zero (n : Nat) (h : n &&& CO_FL_RD_ENA = 0) :
    normalizeNibble n &&& (CO_FL_RD_ENA ||| CO_FL_RD_POL) = 0 := by
  have hA : (if n &&& CO_FL_RD_ENA ≠ 0 then n &&& (CO_FL_RD_ENA ||| CO_FL_RD_POL)
             else 0) = 0 := by
    simp [h]
  unfold normalizeNibble
  rw [hA, Nat.zero_or]
  split
  · exact and_and_of_zero _ _ _ (by decide)
  · exact Nat.zero_and _

/-- A direction whose ENABLED base bit is clear in an intent nibble
contributes no bit to the normalized nibble. -/
lemma normalizeNibble_dir_zero (d : Dir) (n : Nat)
    (h : n &&& baseEnaMask d = 0) :
    normalizeNibble n &&& (baseEnaMask d ||| basePolMask d) = 0 := by
  cases d
  · exact normalizeNibble_rd_zero n h
  · exact normalizeNibble_wr_zero n h

/-! ## The claims -/

/-- Claim C1, counterexample: in the flag word
`CO_FL_WAIT_L4_CONN ||| CO_FL_DATA_RD_ENA` every handshake flag is clear
(and no error is set), the data layer declares read intent, yet the
reconciled target is the (empty) socket-layer intent, not the data-layer
one: `CO_FL_WAIT_L4_CONN` alone keeps socket-layer precedence, refuting
"once all handshake flags are clear, the data-layer intent determines the
target on the next reconciliation". -/
theorem C1_counterexample :
    (CO_FL_WAIT_L4_CONN ||| CO_FL_DATA_RD_ENA) &&& CO_FL_HANDSHAKE = 0 ∧
    (CO_FL_WAIT_L4_CONN ||| CO_FL_DATA_RD_ENA) &&& CO_FL_ERROR = 0 ∧
    normalizeNibble (dataNib (CO_FL_WAIT_L4_CONN ||| CO_FL_DATA_RD_ENA)) =
      CO_FL_RD_ENA ∧
    reconcileTarget (CO_FL_WAIT_L4_CONN ||| CO_FL_DATA_RD_ENA) = 0 := by
  decide

/-- Claim C1 (as amended): while no error is flagged, any set handshake
flag makes the reconciled target exactly the normalized socket-layer
declared intent, whatever the data-layer bits hold; the data-layer intent
determines the target once all of `CO_FL_POLL_SOCK` — the handshake flags
together with the L4/L6 connect waits — is clear (not merely once the
handshake flags are clear); and every bit of `CO_FL_HANDSHAKE` is
contained in `CO_FL_POLL_SOCK`. -/
theorem C1_amended_sock_precedence :
    (∀ f : Nat, f &&& CO_FL_ERROR = 0 → f &&& CO_FL_HANDSHAKE ≠ 0 →
        reconcileTarget f = normalizeNibble (sockNib f)) ∧
    (∀ f : Nat, f &&& CO_FL_ERROR = 0 → f &&& CO_FL_POLL_SOCK = 0 →
        reconcileTarget f = normalizeNibble (dataNib f)) ∧
    CO_FL_HANDSHAKE &&& CO_FL_POLL_SOCK = CO_FL_HANDSHAKE := by
  refine ⟨?_, ?_, by decide⟩
  · intro f he hh
    have hs : f &&& CO_FL_POLL_SOCK ≠ 0 :=
      and_ne_zero_of_submask f CO_FL_HANDSHAKE CO_FL_POLL_SOCK (by decide) hh
    unfold reconcileTarget intentNibble
    simp [he, hs, sockNib]
  · intro f he hs
    unfold reconcileTarget intentNibble
    simp [he, hs, dataNib]

/-- Claim C1, witness for the amended theorem at concrete inputs: a word
with the PROXY handshake pending follows the socket-layer intent, and a
word with `CO_FL_POLL_SOCK` fully clear follows the data-layer intent. -/
theorem C1_amended_witness :
    ((CO_FL_SI_SEND_PROXY ||| CO_FL_SOCK_WR_ENA ||| CO_FL_DATA_RD_ENA) &&&
        CO_FL_ERROR = 0 ∧
      reconcileTarget (CO_FL_SI_SEND_PROXY ||| CO_FL_SOCK_WR_ENA ||| CO_FL_DATA_RD_ENA) =
        normalizeNibble
          (sockNib (CO_FL_SI_SEND_PROXY ||| CO_FL_SOCK_WR_ENA ||| CO_FL_DATA_RD_ENA))) ∧
    (CO_FL_DATA_RD_ENA &&& CO_FL_ERROR = 0 ∧
      reconcileTarget CO_FL_DATA_RD_ENA = normalizeNibble (dataNib CO_FL_DATA_RD_ENA)) :=
  ⟨⟨by decide, C1_amended_sock_precedence.1 _ (by decide) (by decide)⟩,
   ⟨by decide, C1_amended_sock_precedence.2.1 _ (by decide) (by decide)⟩⟩

/-- Claim C2: with the error flag set, reconciliation yields
"disable all directions" — target nibble zero, all four CURR bits cleared
by the update — whatever the prior armed state and declared intents; and
no operation of this core (reconciliation, the per-direction intent
manipulations, the shutdown check-and-set) ever changes, in particular
never clears, the error bit. -/
theorem C2_error_poison :
    (∀ f : Nat, f &&& CO_FL_ERROR ≠ 0 →
        reconcileTarget f = 0 ∧ currNibble (conn_update_polling f) = 0) ∧
    (∀ f : Nat, conn_update_polling f &&& CO_FL_ERROR = f &&& CO_FL_ERROR) ∧
    (∀ (L : IntentLayer) (d : Dir) (o : DirOp) (f : Nat),
        applyOp L d o f &&& CO_FL_ERROR = f &&& CO_FL_ERROR) ∧
    (∀ f m : Nat,
        (m = CO_FL_DATA_RD_SH ∨ m = CO_FL_DATA_WR_SH ∨
         m = CO_FL_SOCK_RD_SH ∨ m = CO_FL_SOCK_WR_SH) →
        (checkAndSet f m).2 &&& CO_FL_ERROR = f &&& CO_FL_ERROR) := by
  refine ⟨?_, ?_, applyOp_preserves_error, ?_⟩
  · intro f he
    have ht : reconcileTarget f = 0 := by simp [reconcileTarget, he]
    exact ⟨ht, by rw [currNibble_update, ht]⟩
  · intro f
    exact and_mask_congr28 CO_FL_ERROR (by decide) (update_mod f)
  · intro f m hm
    rcases hm with h | h | h | h <;> subst h <;>
      exact or_and_of_disjoint _ _ _ (by decide)

/-- Claim C2, witness at a concrete input: an errored word with both
intents and an armed CURR state reconciles to all-disabled, and the
shutdown latch keeps the error bit. -/
theorem C2_error_poison_witness :
    (reconcileTarget (CO_FL_ERROR ||| CO_FL_DATA_RD_ENA ||| CO_FL_SOCK_WR_ENA |||
        CO_FL_CURR_RD_ENA) = 0 ∧
      currNibble (conn_update_polling (CO_FL_ERROR ||| CO_FL_DATA_RD_ENA |||
        CO_FL_SOCK_WR_ENA ||| CO_FL_CURR_RD_ENA)) = 0) ∧
    (checkAndSet CO_FL_ERROR CO_FL_DATA_RD_SH).2 &&& CO_FL_ERROR =
      CO_FL_ERROR &&& CO_FL_ERROR :=
  ⟨C2_error_poison.1 _ (by decide),
   C2_error_poison.2.2.2 CO_FL_ERROR CO_FL_DATA_RD_SH (Or.inl rfl)⟩

/-- Claim C3: reconciliation is idempotent — after one reconciliation has
updated the CURR nibble to the armed target, an immediate second
reconciliation (no intervening DATA/SOCK change) leaves the flag word
unchanged and emits no poller action. -/
theorem C3_reconcile_idempotent :
    ∀ f : Nat,
      conn_update_polling (conn_update_polling f) = conn_update_polling f ∧
      pollerAction (conn_update_polling f) = PollerAction.noop := by
  intro f
  have hr : reconcileTarget (conn_update_polling f) = reconcileTarget f :=
    reconcileTarget_congr (update_mod f)
  constructor
  · show conn_update_polling f % 0x10000000 +
        reconcileTarget (conn_update_polling f) * 0x10000000 = conn_update_polling f
    rw [update_mod f, hr]
    rfl
  · unfold pollerAction
    rw [hr, currNibble_update]
    simp

/-- Claim C4: for either direction, if the direction's NEEDS-POLL CURR
bit is still armed from a prior cycle while the effective declared intent
no longer has that direction's ENABLED bit, reconciliation clears both
that direction's `CO_FL_CURR_*_ENA` and `CO_FL_CURR_*_POL` bits: a
disabled direction contributes nothing to polling. -/
theorem C4_disable_clears_poll :
    ∀ (d : Dir) (f : Nat), f &&& currPolMask d ≠ 0 →
      intentNibble f &&& baseEnaMask d = 0 →
      conn_update_polling f &&& (currEnaMask d ||| currPolMask d) = 0 := by
  intro d f hcurr hena
  have ht : reconcileTarget f &&& (baseEnaMask d ||| basePolMask d) = 0 := by
    unfold reconcileTarget
    split
    · exact Nat.zero_and _
    · exact normalizeNibble_dir_zero d _ hena
  have hmask : currEnaMask d ||| currPolMask d =
      (baseEnaMask d ||| basePolMask d) * 0x10000000 := by
    cases d <;> decide
  rw [hmask]
  unfold conn_update_polling
  rw [high_and_split _ _ _ (Nat.mod_lt _ (by norm_num))]
  rw [ht, Nat.zero_mul]

/-- Claim C4, witness at both directions: the direction's NEEDS-POLL CURR
bit armed, data layer keeping only that direction's NEEDS-POLL intent
with its ENABLED bit clear — the reconciled word clears both of that
direction's CURR bits. -/
theorem C4_disable_clears_poll_witness :
    conn_update_polling
        (CO_FL_CURR_RD_POL ||| CO_FL_CURR_RD_ENA ||| CO_FL_DATA_RD_POL) &&&
      (currEnaMask Dir.rd ||| currPolMask Dir.rd) = 0 ∧
    conn_update_polling
        (CO_FL_CURR_WR_POL ||| CO_FL_CURR_WR_ENA ||| CO_FL_DATA_WR_POL) &&&
      (currEnaMask Dir.wr ||| currPolMask Dir.wr) = 0 :=
  ⟨C4_disable_clears_poll Dir.rd _ (by decide) (by decide),
   C4_disable_clears_poll Dir.wr _ (by decide) (by decide)⟩

/-- Claim C5, counterexample: the waiting-for-L6-connect flag (an
encrypted handshake in progress) is not contained in `CO_FL_HANDSHAKE`:
their intersection is empty although the flag is nonzero. -/
theorem C5_counterexample :
    CO_FL_WAIT_L6_CONN &&& CO_FL_HANDSHAKE = 0 ∧ CO_FL_WAIT_L6_CONN ≠ 0 := by
  decide

/-- Claim C5 (as amended): `CO_FL_HANDSHAKE` is the OR of the header's
handshake sub-flags, which at this revision is exactly
`CO_FL_SI_SEND_PROXY`; the waiting-for-L6-connect flag is not one of them
and sits outside `CO_FL_HANDSHAKE`, but it is contained — as is the whole
handshake group — in `CO_FL_POLL_SOCK`. -/
theorem C5_amended_handshake_group :
    CO_FL_HANDSHAKE = CO_FL_SI_SEND_PROXY ∧
    CO_FL_WAIT_L6_CONN &&& CO_FL_HANDSHAKE = 0 ∧
    CO_FL_WAIT_L6_CONN &&& CO_FL_POLL_SOCK = CO_FL_WAIT_L6_CONN ∧
    CO_FL_HANDSHAKE &&& CO_FL_POLL_SOCK = CO_FL_HANDSHAKE := by
  decide

/-- Claim C6: each of the four shutdown flags is a one-shot latch: the
check-and-set returns "first observer" exactly when the latch bit was
still clear, its post-state has the bit set, the bit remains set across
any number of further check-and-set calls, and every call made with the
bit already set returns "already observed" — so the notification for an
edge is delivered at most once. -/
theorem C6_shutdown_latch :
    ∀ m : Nat,
      (m = CO_FL_DATA_RD_SH ∨ m = CO_FL_DATA_WR_SH ∨
       m = CO_FL_SOCK_RD_SH ∨ m = CO_FL_SOCK_WR_SH) →
      ∀ f : Nat,
        ((checkAndSet f m).1 = true ↔ f &&& m = 0) ∧
        (checkAndSet f m).2 &&& m ≠ 0 ∧
        (∀ n : Nat,
          (fun g => (checkAndSet g m).2)^[n] (checkAndSet f m).2 &&& m ≠ 0) ∧
        (∀ g : Nat, g &&& m ≠ 0 → (checkAndSet g m).1 = false) := by
  intro m hm f
  have hmne : m ≠ 0 := by rcases hm with h | h | h | h <;> subst h <;> decide
  have hset : ∀ g : Nat, (checkAndSet g m).2 &&& m ≠ 0 := by
    intro g
    show (g ||| m) &&& m ≠ 0
    exact or_and_ne_zero _ _ _ (Nat.and_self m) hmne
  have hiter : ∀ (n : Nat) (x : Nat), x &&& m ≠ 0 →
      (fun g => (checkAndSet g m).2)^[n] x &&& m ≠ 0 := by
    intro n
    induction n with
    | zero => intro x hx; simpa using hx
    | succ k ih =>
      intro x hx
      rw [Function.iterate_succ_apply]
      exact ih _ (hset x)
  refine ⟨?_, hset f, fun n => hiter n _ (hset f), ?_⟩
  · show (f &&& m == 0) = true ↔ f &&& m = 0
    simp
  · intro g hg
    show (g &&& m == 0) = false
    simp [hg]

/-- Claim C6, witness: on a fresh word the DATA read-shutdown latch
reports "first observer" once and "already observed" on the second
call. -/
theorem C6_shutdown_latch_witness :
    (checkAndSet 0 CO_FL_DATA_RD_SH).1 = true ∧
    (checkAndSet (checkAndSet 0 CO_FL_DATA_RD_SH).2 CO_FL_DATA_RD_SH).1 = false := by
  have h := C6_shutdown_latch CO_FL_DATA_RD_SH (Or.inl rfl)
  exact ⟨(h 0).1.mpr (by decide),
         (h (checkAndSet 0 CO_FL_DATA_RD_SH).2).2.2.2 _ ((h 0).2.1)⟩

/-- Claim C7: read-direction and write-direction operations are
independent and commute: an operation changes no bit outside its own
direction's two bits (in particular none of the other direction's),
read and write operations commute, any interleaving equals applying the
write-direction subsequence and then the read-direction subsequence each
in order, and after each operation the direction is in the
STOPPED/ENABLED/POLLED state of the header's truth table. -/
theorem C7_direction_independence :
    (∀ (L : IntentLayer) (d : Dir) (o : DirOp) (f : Nat),
        applyOp L d o f &&& NOT32 (dirMask L d) = f &&& NOT32 (dirMask L d)) ∧
    (∀ (L : IntentLayer) (o : DirOp) (f : Nat),
        applyOp L Dir.rd o f &&& dirMask L Dir.wr = f &&& dirMask L Dir.wr) ∧
    (∀ (L : IntentLayer) (o : DirOp) (f : Nat),
        applyOp L Dir.wr o f &&& dirMask L Dir.rd = f &&& dirMask L Dir.rd) ∧
    (∀ (L : IntentLayer) (o o' : DirOp) (f : Nat),
        applyOp L Dir.rd o (applyOp L Dir.wr o' f) =
          applyOp L Dir.wr o' (applyOp L Dir.rd o f)) ∧
    (∀ (L : IntentLayer) (l : List (Dir × DirOp)) (f : Nat),
        applyOps L l f = applyOps L (rdOnly l) (applyOps L (wrOnly l) f)) ∧
    (∀ (L : IntentLayer) (d : Dir) (f : Nat),
        dirState L d (applyOp L d DirOp.disable f) = DirPollState.STOPPED ∧
        dirState L d (applyOp L d DirOp.pollNeeded f) = DirPollState.POLLED ∧
        dirState L d (applyOp L d DirOp.enable f) =
          (if f &&& polMask L d ≠ 0 then DirPollState.POLLED
           else DirPollState.ENABLED)) := by
  refine ⟨applyOp_outside, ?_, ?_, applyOp_rd_wr_comm, applyOps_split,
    fun L d f =>
      ⟨dirState_disable L d f, dirState_pollNeeded L d f, dirState_enable L d f⟩⟩
  · intro L o f
    exact and_mask_of_and_mask _ _ _ _ (by cases L <;> decide)
      (applyOp_outside L Dir.rd o f)
  · intro L o f
    exact and_mask_of_and_mask _ _ _ _ (by cases L <;> decide)
      (applyOp_outside L Dir.wr o f)

/-- Claim C8: the peer address and its length are consistent as a pair —
the pointer is absent exactly when the stored length is zero — at
creation, and this is preserved by the atomic pair-wise peer-address set
(for clearing, or for any nonempty address), by every flag-word
operation, while the atomic get returns exactly the stored pair. -/
theorem C8_peeraddr_consistent :
    (∀ (d ct : Nat) (fd : Int), peerConsistent (conn_init d ct fd)) ∧
    (∀ (c : connection) (a : Option (List Nat)),
        peerConsistent c → (∀ l, a = some l → l ≠ []) →
        peerConsistent (conn_set_peeraddr c a)) ∧
    (∀ (c : connection) (g : Nat → Nat),
        peerConsistent c → peerConsistent (conn_update_flags c g)) ∧
    (∀ c : connection, conn_get_peeraddr c = (c.peeraddr, c.peerlen)) := by
  refine ⟨?_, ?_, ?_, fun c => rfl⟩
  · intro d ct fd
    simp [peerConsistent, conn_init]
  · intro c a hc ha
    cases a with
    | none => simp [peerConsistent, conn_set_peeraddr]
    | some l =>
      have hl : l ≠ [] := ha l rfl
      simp [peerConsistent, conn_set_peeraddr, hl]
  · intro c g hc
    simpa [peerConsistent, conn_update_flags] using hc

/-- Claim C8, witness: setting a four-byte peer address on a fresh
connection keeps the pointer/length pair consistent. -/
theorem C8_peeraddr_consistent_witness :
    peerConsistent (conn_set_peeraddr (conn_init 0 0 3) (some [127, 0, 0, 1])) :=
  C8_peeraddr_consistent.2.1 (conn_init 0 0 3) (some [127, 0, 0, 1])
    (by decide) (by intro l h; cases h; decide)

/-- Claim C9: `CO_FL_POLL_SOCK` is strictly larger than the handshake
group: it also contains the L4 and L6 connect-wait flags, and a
non-errored connection waiting on an L4 or L6 connect takes its polling
target from the socket-layer intent even with every `CO_FL_HANDSHAKE`
sub-flag clear. -/
theorem C9_poll_sock_strict :
    CO_FL_WAIT_L4_CONN &&& CO_FL_POLL_SOCK = CO_FL_WAIT_L4_CONN ∧
    CO_FL_WAIT_L6_CONN &&& CO_FL_POLL_SOCK = CO_FL_WAIT_L6_CONN ∧
    CO_FL_HANDSHAKE &&& CO_FL_POLL_SOCK = CO_FL_HANDSHAKE ∧
    CO_FL_POLL_SOCK ≠ CO_FL_HANDSHAKE ∧
    (∀ f : Nat, f &&& CO_FL_HANDSHAKE = 0 → f &&& CO_FL_ERROR = 0 →
        f &&& (CO_FL_WAIT_L4_CONN ||| CO_FL_WAIT_L6_CONN) ≠ 0 →
        reconcileTarget f = normalizeNibble (sockNib f)) := by
  refine ⟨by decide, by decide, by decide, by decide, ?_⟩
  intro f hh he hw
  have hs : f &&& CO_FL_POLL_SOCK ≠ 0 :=
    and_ne_zero_of_submask f (CO_FL_WAIT_L4_CONN ||| CO_FL_WAIT_L6_CONN)
      CO_FL_POLL_SOCK (by decide) hw
  unfold reconcileTarget intentNibble
  simp [he, hs, sockNib]

/-- Claim C9, witness: an L6-connect wait with no handshake sub-flag set
still reconciles to the socket-layer intent. -/
theorem C9_poll_sock_strict_witness :
    reconcileTarget (CO_FL_WAIT_L6_CONN ||| CO_FL_SOCK_RD_ENA ||| CO_FL_DATA_WR_ENA) =
      normalizeNibble
        (sockNib (CO_FL_WAIT_L6_CONN ||| CO_FL_SOCK_RD_ENA ||| CO_FL_DATA_WR_ENA)) :=
  C9_poll_sock_strict.2.2.2.2 _ (by decide) (by decide) (by decide)

/-- Claim C10: the 22 storable flag constants (six lifecycle/status, four
shutdown latches, twelve DATA/SOCK/CURR polling bits) are pairwise
distinct single bits; the five families occupy pairwise disjoint bit
ranges; and the four unshifted base constants equal `CO_FL_ERROR`,
`CO_FL_CONNECTED`, `CO_FL_WAIT_L4_CONN`, `CO_FL_WAIT_L6_CONN`
respectively, so OR-ing a base constant directly into a flag word sets a
lifecycle flag and no polling bit. -/
theorem C10_flag_bit_layout :
    List.Pairwise (· ≠ ·) storableFlags ∧
    (∀ x ∈ storableFlags, x ≠ 0 ∧ x &&& (x - 1) = 0) ∧
    (lifecycleMask &&& shutdownMask = 0 ∧ lifecycleMask &&& dataIntentMask = 0 ∧
     lifecycleMask &&& sockIntentMask = 0 ∧ lifecycleMask &&& currStateMask = 0 ∧
     shutdownMask &&& dataIntentMask = 0 ∧ shutdownMask &&& sockIntentMask = 0 ∧
     shutdownMask &&& currStateMask = 0 ∧ dataIntentMask &&& sockIntentMask = 0 ∧
     dataIntentMask &&& currStateMask = 0 ∧ sockIntentMask &&& currStateMask = 0) ∧
    (CO_FL_RD_ENA = CO_FL_ERROR ∧ CO_FL_RD_POL = CO_FL_CONNECTED ∧
     CO_FL_WR_ENA = CO_FL_WAIT_L4_CONN ∧ CO_FL_WR_POL = CO_FL_WAIT_L6_CONN) ∧
    ((CO_FL_NONE ||| CO_FL_RD_ENA) &&& lifecycleMask ≠ 0 ∧
     (CO_FL_NONE ||| CO_FL_RD_ENA) &&&
       (dataIntentMask ||| sockIntentMask ||| currStateMask) = 0) := by
  decide
